import Mathlib

/-
Shallow embedding of the kuyruk task-dispatch core
(src/kuyruk/task.py and src/kuyruk/result.py).

Python values that flow through call arguments, descriptors and replies are
modelled by the inductive PyVal.  Keyword-argument dictionaries are ordered
association lists with unique keys.  Side effects (signal emission, transport
sends) are made explicit as result fields of the modelled operations.
-/

set_option autoImplicit false
set_option linter.dupNamespace false

deriving instance DecidableEq for Except

namespace Kuyruk

/-- Python values as they appear in task arguments and wire messages.
The obj constructor stands for an instance of a user class carrying an
id attribute, as used by class tasks. -/
inductive PyVal where
  | pyNone
  | bool (b : Bool)
  | int (n : Int)
  | str (s : String)
  | obj (objId : String)
deriving DecidableEq, Repr

/-- Python truthiness of a PyVal. -/
def pyTruthy : PyVal → Bool
  | .pyNone => false
  | .bool b => b
  | .int n => n != 0
  | .str s => s != ""
  | .obj _ => true

/-- Rendering of a PyVal by the %s format, as in the queue-name
interpolation of send_to_queue. -/
def pyStr : PyVal → String
  | .pyNone => "None"
  | .bool b => if b then "True" else "False"
  | .int n => toString n
  | .str s => s
  | .obj i => "<object " ++ i ++ ">"

/-- Keyword arguments: an ordered mapping from names to values. -/
abbrev Kwargs := List (String × PyVal)

/-- Removing a key from a kwargs dict (dict keys are unique, so filtering
all occurrences models dict.pop exactly on well-formed dicts). -/
def removeKw (kwargs : Kwargs) (key : String) : Kwargs :=
  kwargs.filter fun p => p.1 ≠ key

/-- kwargs.pop(key, None): the value under the key (None when absent)
together with the dict with the key removed. -/
def popKw (kwargs : Kwargs) (key : String) : PyVal × Kwargs :=
  ((kwargs.lookup key).getD PyVal.pyNone, removeKw kwargs key)

/-- Exception information: the (type, value, traceback) triple as produced
by sys.exc_info on the worker side and as carried by the exception field
of a reply message. -/
structure ExcInfo where
  type : String
  value : String
  traceback : String
deriving DecidableEq, Repr

/-- The lifecycle events defined in kuyruk.events. -/
inductive EventKind where
  | task_presend
  | task_postsend
  | task_prerun
  | task_postrun
  | task_success
  | task_failure
deriving DecidableEq, Repr

/-- Event-specific extra data attached to a signal emission. -/
inductive SignalExtra where
  | noExtra
  | excInfo (e : ExcInfo)
  | returnValue (v : PyVal)
deriving DecidableEq, Repr

/-- A sender in the signal chain of Task.send_signal:
the task instance itself, a class identified by its name, or the
global Kuyruk application instance. -/
inductive Sender where
  | taskInstance
  | pyClass (className : String)
  | kuyrukInstance
deriving DecidableEq, Repr

/-- One delivery of a signal to one sender: signal.send(sender, task=self,
args=args, kwargs=kwargs, **extra). -/
structure Emission where
  event : EventKind
  sender : Sender
  args : List PyVal
  kwargs : Kwargs
  extra : SignalExtra
deriving DecidableEq, Repr

/-- The relevant part of kuyruk.Config. -/
structure Config where
  EAGER : Bool := false
  MAX_TASK_RUN_TIME : Option Nat := none
deriving DecidableEq, Repr

/-- The global Kuyruk application object, as far as this core reads it. -/
structure Kuyruk where
  config : Config := {}
deriving DecidableEq, Repr

/-- The Task object.  f itself is kept abstract (bodies are passed as
explicit parameters to apply); fModule and fName are f.__module__ and
f.__name__.  cls is the owning-type identity written by __get__.
pyClassName models type(self).__name__: the runtime class of the Task
object itself (Task or a subclass of Task), which is what self.__class__
denotes in send_signal.  The remapping of a __main__ module name is done
by the importer collaborator, which the spec excludes from the core. -/
structure Task where
  fModule : String
  fName : String
  queue : String := "kuyruk"
  localFlag : Bool := false
  eager : Bool := false
  retry : Nat := 0
  maxRunTime : Option Nat := none
  cls : Option String := none
  pyClassName : String := "Task"
deriving DecidableEq, Repr

/-- The sender tuple (self, self.__class__, self.kuyruk) of
Task.send_signal, in source order. -/
def Task.senders (t : Task) : List Sender :=
  [Sender.taskInstance, Sender.pyClass t.pyClassName, Sender.kuyrukInstance]

/-- Task.send_signal: deliver the signal to each sender in turn,
reversing the chain when reverse is set. -/
def Task.send_signal (t : Task) (event : EventKind) (args : List PyVal)
    (kwargs : Kwargs) (reverse : Bool) (extra : SignalExtra) : List Emission :=
  let ss := if reverse then t.senders.reverse else t.senders
  ss.map fun s => { event := event, sender := s, args := args, kwargs := kwargs, extra := extra }

/-- Task.module_name (the __main__ remapping lives in the excluded
importer collaborator and is not modelled). -/
def Task.module_name (t : Task) : String := t.fModule

/-- Task.class_name: the name of cls when set, otherwise None. -/
def Task.class_name (t : Task) : Option String := t.cls

/-- Task.name: module:function, or module:Class.function for class tasks. -/
def Task.name (t : Task) : String :=
  match t.class_name with
  | some c => t.module_name ++ ":" ++ c ++ "." ++ t.fName
  | none => t.module_name ++ ":" ++ t.fName

/-- Task.__get__ writes objtype into self.cls unconditionally on every
attribute access through a class, then returns the bound callable
(the returned Task value here is the mutated task object). -/
def Task.__get__ (t : Task) (objtype : String) : Task :=
  { t with cls := some objtype }

/-- Outcome of running the wrapped function on given arguments. -/
inductive BodyOutcome where
  | ret (v : PyVal)
  | exc (e : ExcInfo)
deriving DecidableEq, Repr

/-- Errors that can propagate out of the modelled operations. -/
inductive PyErr where
  | indexError
  | attributeError
  | raised (e : ExcInfo)
deriving DecidableEq, Repr

/-- Python or-chaining for the limit computation
(self.max_run_time or self.kuyruk.config.MAX_TASK_RUN_TIME or 0):
None and 0 are both falsy. -/
def pyOrNat : Option Nat → Nat → Nat
  | some n, b => if n = 0 then b else n
  | none, b => b

/-- Everything observable about one run of Task.apply: the signal
emissions in order, the arguments the wrapped function was called with,
the computed time limit, and what apply itself returns or raises. -/
structure ApplyOutcome where
  emissions : List Emission
  bodyArgs : List PyVal
  bodyKwargs : Kwargs
  limit : Nat
  result : Except ExcInfo PyVal
deriving Repr

/-- Task.apply.  The try block fires prerun (reversed) and calls the
wrapped function under the time limit; on an exception the failure
signal fires with the captured exception info and the exception is
re-raised; on normal completion the else clause fires success with the
return value; the finally clause always fires postrun last.  Note that
the source has no return statement on the normal path, so apply returns
None (the local return_value is only handed to the success signal). -/
def Task.apply (t : Task) (k : Kuyruk) (args : List PyVal) (kwargs : Kwargs)
    (f : List PyVal → Kwargs → BodyOutcome) : ApplyOutcome :=
  let limit := pyOrNat t.maxRunTime (pyOrNat k.config.MAX_TASK_RUN_TIME 0)
  let pre := t.send_signal .task_prerun args kwargs true .noExtra
  match f args kwargs with
  | .exc e =>
      { emissions := pre
          ++ t.send_signal .task_failure args kwargs false (.excInfo e)
          ++ t.send_signal .task_postrun args kwargs false .noExtra
        bodyArgs := args
        bodyKwargs := kwargs
        limit := limit
        result := .error e }
  | .ret v =>
      { emissions := pre
          ++ t.send_signal .task_success args kwargs false (.returnValue v)
          ++ t.send_signal .task_postrun args kwargs false .noExtra
        bodyArgs := args
        bodyKwargs := kwargs
        limit := limit
        result := .ok PyVal.pyNone }

/-- Values appearing in a task description dictionary. -/
inductive DescVal where
  | str (s : String)
  | null
  | nat (n : Nat)
  | argList (a : List PyVal)
  | kwargMap (m : Kwargs)
deriving DecidableEq, Repr

/-- Per-send environment data put into the description: the freshly
generated uuid1 hex and the sender provenance fields. -/
structure DescMeta where
  descId : String
  senderTimestamp : String
  senderHostname : String
  senderPid : Nat
  senderCmd : String
deriving DecidableEq, Repr

/-- The args[0] = args[0].id replacement done for class tasks: reading
args[0] of an empty args tuple raises IndexError, and reading the id
attribute of a value that has none raises AttributeError; both
propagate. -/
def replaceFirstArgWithId : List PyVal → Except PyErr (List PyVal)
  | [] => .error .indexError
  | .obj i :: rest => .ok (PyVal.str i :: rest)
  | _ :: _ => .error .attributeError

/-- Task.get_task_description: the wire dictionary, in source field
order.  When cls is set, the first positional argument is replaced by
its id attribute.  The class key is always present; its value is the
owning-type name, or None for unbound tasks. -/
def Task.get_task_description (t : Task) (args : List PyVal) (kwargs : Kwargs)
    (queue : String) (meta : DescMeta) : Except PyErr (List (String × DescVal)) :=
  match (if t.cls.isSome then replaceFirstArgWithId args else .ok args) with
  | .error e => .error e
  | .ok args =>
      .ok [("id", .str meta.descId),
       ("queue", .str queue),
       ("args", .argList args),
       ("kwargs", .kwargMap kwargs),
       ("module", .str t.module_name),
       ("function", .str t.fName),
       ("class", match t.class_name with | some c => .str c | none => .null),
       ("retry", .nat t.retry),
       ("sender_timestamp", .str meta.senderTimestamp),
       ("sender_hostname", .str meta.senderHostname),
       ("sender_pid", .nat meta.senderPid),
       ("sender_cmd", .str meta.senderCmd)]

/-- Everything observable about one send: the queue-name string and the
local flag handed to the Queue constructor, the resolved queue name the
message is sent to, and the description that was sent. -/
structure SendRecord where
  queueArg : String
  localVal : PyVal
  queueName : String
  desc : List (String × DescVal)
deriving DecidableEq, Repr

/-- Modelled from the spec: kuyruk/queue.py is not under src/.  Per the
send_to_queue docstring (the hostname of this host will be appended to
the queue name for local routing) and section 6 of the spec, a Queue
constructed with a truthy local flag resolves its name by appending the
current hostname. -/
def queueResolvedName (queue : String) (localVal : PyVal) (hostname : String) : String :=
  if pyTruthy localVal then queue ++ "." ++ hostname else queue

/-- The queue-name and local-flag resolution at the head of
Task.send_to_queue: a per-call local that is not None overrides the
configured flag; a truthy host wins over everything, appending the host
to the configured queue name (rendered with %s) and clearing the local
flag. -/
def resolveRouting (t : Task) (host localArg : PyVal) : String × PyVal :=
  let queue := t.queue
  let localVal := PyVal.bool t.localFlag
  let localVal := if localArg ≠ PyVal.pyNone then localArg else localVal
  if pyTruthy host then (t.queue ++ "." ++ pyStr host, PyVal.bool false)
  else (queue, localVal)

/-- Task.send_to_queue: resolve queue name and local flag, build the
description against the resolved queue name, send it and return the
description id.  A failure while building the description propagates
and nothing is sent. -/
def Task.send_to_queue (t : Task) (args : List PyVal) (kwargs : Kwargs)
    (host localArg : PyVal) (hostname : String) (meta : DescMeta) :
    Except PyErr SendRecord :=
  let ql := resolveRouting t host localArg
  let queueName := queueResolvedName ql.1 ql.2 hostname
  (t.get_task_description args kwargs queueName meta).map fun d =>
    { queueArg := ql.1, localVal := ql.2, queueName := queueName, desc := d }

/-- The TaskResult handle.  The task attribute is set in __init__; id is
set by __call__ on the queued path and result on the eager path.  An
Option none field means the attribute is absent from the instance
dictionary. -/
structure TaskResult where
  task : Task
  id : Option String := none
  result : Option PyVal := none
deriving DecidableEq, Repr

/-- A value read back from a TaskResult attribute. -/
inductive TRVal where
  | taskVal (t : Task)
  | strVal (s : String)
  | pyVal (v : PyVal)
deriving DecidableEq, Repr

/-- Attribute read on a TaskResult.  Python calls __getattr__ only when
normal lookup fails, so attributes present in the instance dictionary
(task always; id or result when set) are returned; any other read
raises the bare Exception(item) of TaskResult.__getattr__, modelled as
an error carrying exactly the exception argument.  Class-level dunder
lookups are outside this model. -/
def TaskResult.getattr (r : TaskResult) (item : String) : Except String TRVal :=
  if item = "task" then .ok (.taskVal r.task)
  else if item = "id" then
    match r.id with
    | some i => .ok (.strVal i)
    | none => .error item
  else if item = "result" then
    match r.result with
    | some v => .ok (.pyVal v)
    | none => .error item
  else .error item

/-- Item read on a TaskResult: __getitem__ always raises
Exception(item). -/
def TaskResult.getitem (_r : TaskResult) (item : PyVal) : Except String TRVal :=
  .error (pyStr item)

/-- Everything observable about one invocation through Task.__call__:
signal emissions in order, the messages sent to the transport, the
arguments the wrapped function was invoked with (None when the body
never ran), and the returned handle or the propagated exception. -/
structure CallOutcome where
  emissions : List Emission
  sent : List SendRecord
  bodyCalled : Option (List PyVal × Kwargs)
  handle : Except PyErr TaskResult
deriving Repr

/-- Task.__call__: fire presend (reversed), create the handle; on the
eager path (task flag or global config) run apply and store its return
value into the handle; otherwise pop kuyruk_host and kuyruk_local from
the kwargs and send to the queue, storing the description id into the
handle; finally fire postsend (with the kwargs object as it stands at
that point, i.e. after the pops on the queued path) and return the
handle.  An exception from apply or from the send propagates before
postsend can fire. -/
def Task.__call__ (t : Task) (k : Kuyruk) (args : List PyVal) (kwargs : Kwargs)
    (f : List PyVal → Kwargs → BodyOutcome)
    (hostname : String) (meta : DescMeta) : CallOutcome :=
  let pre := t.send_signal .task_presend args kwargs true .noExtra
  if t.eager || k.config.EAGER then
    let ap := t.apply k args kwargs f
    match ap.result with
    | .error e =>
        { emissions := pre ++ ap.emissions
          sent := []
          bodyCalled := some (ap.bodyArgs, ap.bodyKwargs)
          handle := .error (.raised e) }
    | .ok v =>
        { emissions := pre ++ ap.emissions
            ++ t.send_signal .task_postsend args kwargs false .noExtra
          sent := []
          bodyCalled := some (ap.bodyArgs, ap.bodyKwargs)
          handle := .ok { task := t, id := none, result := some v } }
  else
    let hk := popKw kwargs "kuyruk_host"
    let lk := popKw hk.2 "kuyruk_local"
    match t.send_to_queue args lk.2 hk.1 lk.1 hostname meta with
    | .error e =>
        { emissions := pre
          sent := []
          bodyCalled := none
          handle := .error e }
    | .ok sr =>
        { emissions := pre ++ t.send_signal .task_postsend args lk.2 false .noExtra
          sent := [sr]
          bodyCalled := none
          handle := .ok { task := t, id := some meta.descId, result := none } }

/-- A reply message as decoded by Result._process_message: the result
value under the result key and the optional exception payload under the
exception key (absent keys decode to none; a present payload carries
the three fields of the wire format and is therefore a nonempty, truthy
dictionary). -/
structure ReplyMessage where
  result : PyVal
  exception : Option ExcInfo
deriving DecidableEq, Repr

/-- One iteration-worth of input to the Result.wait loop: either
drain_events delivers a reply, or it raises socket.timeout (elapsed is
the total elapsed time observed at the subsequent deadline check), or
it raises a socket.error with the given errno. -/
inductive SliceEvent where
  | message (m : ReplyMessage)
  | sliceTimeout (elapsed : Nat)
  | sockError (errno : Nat)
deriving DecidableEq, Repr

/-- How a call to Result.wait ends: a returned value, a raised
RemoteException with the three remote fields, a raised ResultTimeout, a
propagated socket error, or still pending when the modelled event trace
runs out. -/
inductive WaitOutcome where
  | returned (v : PyVal)
  | remoteException (type value traceback : String)
  | resultTimeout
  | socketError (errno : Nat)
  | pending
deriving DecidableEq, Repr

/-- errno.EINTR on Linux. -/
def EINTR : Nat := 4

/-- Result.wait over a trace of slice events.  The captured state is
the (result, exception) pair written by _process_message, or none while
the attributes are still missing (the AttributeError path of the loop).
Each iteration first resolves a captured outcome: a truthy exception
payload wins and is re-raised as a RemoteException carrying the remote
type, value and traceback verbatim; otherwise the result is returned
as-is.  With nothing captured, the next slice is drained: a reply
updates the captured state; socket.timeout checks total elapsed time
against the timeout and raises ResultTimeout when strictly exceeded;
socket.error retries when errno is EINTR and propagates otherwise. -/
def resultWait : Option (PyVal × Option ExcInfo) → Nat → List SliceEvent → WaitOutcome
  | some (_, some e), _, _ => .remoteException e.type e.value e.traceback
  | some (r, none), _, _ => .returned r
  | none, _, [] => .pending
  | none, t, .message m :: rest => resultWait (some (m.result, m.exception)) t rest
  | none, t, .sliceTimeout elapsed :: rest =>
      if t < elapsed then .resultTimeout else resultWait none t rest
  | none, t, .sockError errno :: rest =>
      if errno = EINTR then resultWait none t rest else .socketError errno

/-! Concrete fixtures used by witnesses and counterexamples. -/

/-- A plain queued task with default configuration. -/
def plainTask : Task := { fModule := "tasks", fName := "echo" }

/-- A task configured eager. -/
def eagerTask : Task := { fModule := "tasks", fName := "echo", eager := true }

/-- A class task whose owning type was resolved to Welcome. -/
def welcomeTask : Task := { fModule := "tasks", fName := "greet", cls := some "Welcome" }

/-- A Kuyruk application with the default configuration. -/
def sampleKuyruk : Kuyruk := {}

/-- A Kuyruk application with the global EAGER switch set. -/
def eagerKuyruk : Kuyruk := { config := { EAGER := true } }

/-- Concrete per-send metadata. -/
def sampleMeta : DescMeta :=
  { descId := "aabbccdd"
    senderTimestamp := "2026-10-12T00:00:00Z"
    senderHostname := "sender-host"
    senderPid := 4242
    senderCmd := "python app.py" }

/-- C4, counterexample: the owning-type identity is re-set on every
bound-method access, not only on the first.  Accessing the task first
through class Welcome and then through class Goodbye overwrites cls and
changes the derived name, refuting the claim that cls is never re-set
and that the name never changes after its first resolution. -/
theorem c4_cls_reset_counterexample :
    ((plainTask.__get__ "Welcome").__get__ "Goodbye").cls ≠ (plainTask.__get__ "Welcome").cls
    ∧ ((plainTask.__get__ "Welcome").__get__ "Goodbye").name ≠ (plainTask.__get__ "Welcome").name := by
  refine ⟨by decide, by decide⟩

/-- C4, amended: __get__ assigns the accessing type into cls on every
access, so the derived name is stable across repeated accesses through
the same class but follows the most recently used class when the task
is accessed through a different one. -/
theorem c4_cls_follows_last_access (t : Task) (c d : String) :
    (t.__get__ c).cls = some c
    ∧ ((t.__get__ c).__get__ c).name = (t.__get__ c).name
    ∧ ((t.__get__ c).__get__ d).cls = some d := by
  exact ⟨rfl, rfl, rfl⟩

/-- C6, counterexample: the middle entry of the sender chain is
self.__class__, the runtime class of the task object (Task), not the
owning type stored in cls: for a task whose owning type resolved to
Welcome, the chain is not (instance, Welcome, kuyruk). -/
theorem c6_sender_chain_counterexample :
    welcomeTask.cls = some "Welcome"
    ∧ welcomeTask.senders
        ≠ [Sender.taskInstance, Sender.pyClass "Welcome", Sender.kuyrukInstance] := by
  refine ⟨rfl, by decide⟩

/-- C6, amended: the sender chain is exactly the task instance, the
runtime class of the task object itself (type(self), not the owning
type in cls), and the global Kuyruk instance; a reversed (pre-event)
broadcast delivers in order global, class, instance, and a forward
(post-event) broadcast delivers in order instance, class, global. -/
theorem c6_sender_chain_order (t : Task) (ev : EventKind) (args : List PyVal)
    (kwargs : Kwargs) (extra : SignalExtra) :
    t.senders = [Sender.taskInstance, Sender.pyClass t.pyClassName, Sender.kuyrukInstance]
    ∧ t.send_signal ev args kwargs true extra
        = [{ event := ev, sender := .kuyrukInstance, args := args, kwargs := kwargs, extra := extra },
           { event := ev, sender := .pyClass t.pyClassName, args := args, kwargs := kwargs, extra := extra },
           { event := ev, sender := .taskInstance, args := args, kwargs := kwargs, extra := extra }]
    ∧ t.send_signal ev args kwargs false extra
        = [{ event := ev, sender := .taskInstance, args := args, kwargs := kwargs, extra := extra },
           { event := ev, sender := .pyClass t.pyClassName, args := args, kwargs := kwargs, extra := extra },
           { event := ev, sender := .kuyrukInstance, args := args, kwargs := kwargs, extra := extra }] := by
  exact ⟨rfl, rfl, rfl⟩

/-- C7: once a reply message has been processed, a non-null exception
payload takes precedence over the result: wait raises a
RemoteException carrying the remote type, value and traceback
verbatim; with a null or absent exception payload, wait returns the
result value as-is. -/
theorem c7_exception_precedence (m : ReplyMessage) (t : Nat) (rest : List SliceEvent)
    (e : ExcInfo) :
    (m.exception = some e →
        resultWait none t (.message m :: rest)
          = .remoteException e.type e.value e.traceback)
    ∧ (m.exception = none →
        resultWait none t (.message m :: rest) = .returned m.result) := by
  constructor <;> intro h <;> simp [resultWait, h]

/-- C7, witness: a reply carrying both a result and an exception
resolves to the remote exception; a reply carrying only a result
resolves to that result. -/
theorem c7_exception_precedence_witness :
    resultWait none 5 [.message ⟨.int 42, some ⟨"ValueError", "bad", "tb"⟩⟩]
        = .remoteException "ValueError" "bad" "tb"
    ∧ resultWait none 5 [.message ⟨.int 42, none⟩] = .returned (.int 42) :=
  ⟨(c7_exception_precedence ⟨.int 42, some ⟨"ValueError", "bad", "tb"⟩⟩ 5 []
      ⟨"ValueError", "bad", "tb"⟩).1 rfl,
   (c7_exception_precedence ⟨.int 42, none⟩ 5 [] ⟨"", "", ""⟩).2 rfl⟩

/-- Every emission produced by one send_signal broadcast carries the
broadcast event. -/
theorem Task.send_signal_event_mem (t : Task) (ev : EventKind) (args : List PyVal)
    (kwargs : Kwargs) (r : Bool) (extra : SignalExtra) :
    ∀ em ∈ t.send_signal ev args kwargs r extra, em.event = ev := by
  intro em hm
  simp only [Task.send_signal, List.mem_map] at hm
  obtain ⟨s, _, rfl⟩ := hm
  rfl

/-- C1: evaluation at the failing input.  An eager task (or any task
under the global EAGER switch) whose body returns 42, invoked with no
arguments, runs the body synchronously and sends nothing to the
transport — but the handle result field holds None rather than 42,
because Task.apply falls off the end of its try/else/finally without a
return statement; the success emission does carry 42. -/
theorem c1_eager_handle_result_is_none :
    ((eagerTask.__call__ sampleKuyruk [] [] (fun _ _ => .ret (.int 42)) "h" sampleMeta).sent = []
      ∧ (eagerTask.__call__ sampleKuyruk [] [] (fun _ _ => .ret (.int 42)) "h" sampleMeta).bodyCalled
          = some ([], [])
      ∧ (eagerTask.__call__ sampleKuyruk [] [] (fun _ _ => .ret (.int 42)) "h" sampleMeta).handle
          = .ok { task := eagerTask, id := none, result := some PyVal.pyNone }
      ∧ (eagerTask.__call__ sampleKuyruk [] [] (fun _ _ => .ret (.int 42)) "h" sampleMeta).handle
          ≠ .ok { task := eagerTask, id := none, result := some (PyVal.int 42) }
      ∧ { event := .task_success, sender := .taskInstance, args := [], kwargs := [],
          extra := .returnValue (.int 42) }
          ∈ (eagerTask.__call__ sampleKuyruk [] [] (fun _ _ => .ret (.int 42)) "h" sampleMeta).emissions)
    ∧ ((plainTask.__call__ eagerKuyruk [] [] (fun _ _ => .ret (.int 42)) "h" sampleMeta).sent = []
      ∧ (plainTask.__call__ eagerKuyruk [] [] (fun _ _ => .ret (.int 42)) "h" sampleMeta).handle
          = .ok { task := plainTask, id := none, result := some PyVal.pyNone }) := by
  exact ⟨⟨rfl, rfl, rfl, by decide, by decide⟩, rfl, rfl⟩

/-- C2: in Task.apply the postrun broadcast always fires, exactly once,
as the final emissions, whatever the body does (a deadline cancellation
is a raised Timeout and takes the exception path); on a body exception
the failure signal fires with the captured exception info and apply
re-raises that exception; on a normal return the success signal fires
carrying the return value. -/
theorem c2_postrun_always_fires_last (t : Task) (k : Kuyruk) (args : List PyVal)
    (kwargs : Kwargs) (f : List PyVal → Kwargs → BodyOutcome) :
    (∃ p, (t.apply k args kwargs f).emissions
            = p ++ t.send_signal .task_postrun args kwargs false .noExtra
          ∧ ∀ em ∈ p, em.event ≠ .task_postrun)
    ∧ (∀ e, f args kwargs = .exc e →
        (t.apply k args kwargs f).result = .error e
        ∧ (t.apply k args kwargs f).emissions
            = t.send_signal .task_prerun args kwargs true .noExtra
              ++ (t.send_signal .task_failure args kwargs false (.excInfo e)
                  ++ t.send_signal .task_postrun args kwargs false .noExtra))
    ∧ (∀ v, f args kwargs = .ret v →
        (t.apply k args kwargs f).emissions
            = t.send_signal .task_prerun args kwargs true .noExtra
              ++ (t.send_signal .task_success args kwargs false (.returnValue v)
                  ++ t.send_signal .task_postrun args kwargs false .noExtra)) := by
  refine ⟨?_, ?_, ?_⟩
  · cases hb : f args kwargs with
    | ret v =>
        refine ⟨t.send_signal .task_prerun args kwargs true .noExtra
              ++ t.send_signal .task_success args kwargs false (.returnValue v), ?_, ?_⟩
        · simp [Task.apply, hb, List.append_assoc]
        · intro em hm
          rcases List.mem_append.1 hm with h1 | h2
          · rw [t.send_signal_event_mem _ _ _ _ _ em h1]; decide
          · rw [t.send_signal_event_mem _ _ _ _ _ em h2]; decide
    | exc e =>
        refine ⟨t.send_signal .task_prerun args kwargs true .noExtra
              ++ t.send_signal .task_failure args kwargs false (.excInfo e), ?_, ?_⟩
        · simp [Task.apply, hb, List.append_assoc]
        · intro em hm
          rcases List.mem_append.1 hm with h1 | h2
          · rw [t.send_signal_event_mem _ _ _ _ _ em h1]; decide
          · rw [t.send_signal_event_mem _ _ _ _ _ em h2]; decide
  · intro e he
    exact ⟨by simp [Task.apply, he], by simp [Task.apply, he]⟩
  · intro v hv
    simp [Task.apply, hv]

/-- C2, witness: a body raising ValueError yields a re-raised error and
the prerun, failure, postrun emission sequence. -/
theorem c2_postrun_always_fires_last_witness :
    (plainTask.apply sampleKuyruk [] [] (fun _ _ => .exc ⟨"ValueError", "bad", "tb"⟩)).result
        = .error ⟨"ValueError", "bad", "tb"⟩
    ∧ (plainTask.apply sampleKuyruk [] [] (fun _ _ => .exc ⟨"ValueError", "bad", "tb"⟩)).emissions
        = plainTask.send_signal .task_prerun [] [] true .noExtra
          ++ (plainTask.send_signal .task_failure [] [] false (.excInfo ⟨"ValueError", "bad", "tb"⟩)
              ++ plainTask.send_signal .task_postrun [] [] false .noExtra) :=
  (c2_postrun_always_fires_last plainTask sampleKuyruk [] []
      (fun _ _ => .exc ⟨"ValueError", "bad", "tb"⟩)).2.1 ⟨"ValueError", "bad", "tb"⟩ rfl

/-- C3, counterexample: not every attribute read on a queued-path
handle raises.  The queued path stores the description id on the
handle, and the task attribute is set in __init__, so reading id or
task returns a value instead of raising. -/
theorem c3_queued_handle_attr_counterexample :
    (plainTask.__call__ sampleKuyruk [] [] (fun _ _ => .ret .pyNone) "h" sampleMeta).handle
        = .ok { task := plainTask, id := some "aabbccdd", result := none }
    ∧ TaskResult.getattr { task := plainTask, id := some "aabbccdd", result := none } "id"
        = .ok (.strVal "aabbccdd")
    ∧ TaskResult.getattr { task := plainTask, id := some "aabbccdd", result := none } "task"
        = .ok (.taskVal plainTask) := by
  exact ⟨rfl, rfl, rfl⟩

/-- C3, amended: an attribute read raises only when the attribute is
not stored on the instance (anything other than task, and id or result
when set); such reads, and every item read, raise a bare generic
exception whose only payload is the accessed name — not a descriptive
error distinguishing a missing result backend from other errors. -/
theorem c3_unset_attr_read_raises (r : TaskResult) (item : String)
    (h1 : item ≠ "task") (h2 : item ≠ "id") (h3 : item ≠ "result") (key : PyVal) :
    r.getattr item = .error item
    ∧ (r.id = none → r.getattr "id" = .error "id")
    ∧ (r.result = none → r.getattr "result" = .error "result")
    ∧ r.getitem key = .error (pyStr key) := by
  refine ⟨by simp [TaskResult.getattr, h1, h2, h3], ?_, ?_, rfl⟩
  · intro h
    simp [TaskResult.getattr, h]
  · intro h
    simp [TaskResult.getattr, h]

/-- C3, witness: reading a foreign attribute or an item on a queued
handle raises with the accessed name as the only payload; reading the
unset result attribute likewise. -/
theorem c3_unset_attr_read_raises_witness :
    TaskResult.getattr { task := plainTask, id := some "aabbccdd", result := none } "backend"
        = .error "backend"
    ∧ TaskResult.getattr { task := plainTask, id := some "aabbccdd", result := none } "result"
        = .error "result"
    ∧ TaskResult.getitem { task := plainTask, id := some "aabbccdd", result := none } (.str "x")
        = .error "x" := by
  have h := c3_unset_attr_read_raises
    { task := plainTask, id := some "aabbccdd", result := none } "backend"
    (by decide) (by decide) (by decide) (.str "x")
  exact ⟨h.1, h.2.2.1 rfl, h.2.2.2⟩

/-- Inversion for a successful Except.map. -/
theorem except_map_eq_ok {ε α β : Type} (f : α → β) (e : Except ε α) (b : β)
    (h : e.map f = .ok b) : ∃ a, e = .ok a ∧ f a = b := by
  cases e with
  | error err => simp [Except.map] at h
  | ok a => exact ⟨a, rfl, by simpa [Except.map] using h⟩

/-- The kwargs entry of a successfully built description is exactly the
kwargs the description was built from. -/
theorem get_task_description_lookup_kwargs (t : Task) (args : List PyVal)
    (kwargs : Kwargs) (queue : String) (meta : DescMeta)
    (d : List (String × DescVal))
    (hd : t.get_task_description args kwargs queue meta = .ok d) :
    d.lookup "kwargs" = some (.kwargMap kwargs) := by
  obtain ⟨fM, fN, q, lf, eg, rt, mrt, cls, pcn⟩ := t
  cases cls with
  | none =>
      injection hd with h
      subst h
      rfl
  | some c =>
      cases args with
      | nil => exact nomatch hd
      | cons a rest =>
          cases a with
          | obj i =>
              injection hd with h
              subst h
              rfl
          | pyNone => exact nomatch hd
          | bool b => exact nomatch hd
          | int n => exact nomatch hd
          | str s => exact nomatch hd

/-- The kwargs entry of the description inside a successful send is the
kwargs that send_to_queue was given. -/
theorem send_to_queue_desc_kwargs (t : Task) (args : List PyVal) (kwargs : Kwargs)
    (host localArg : PyVal) (hostname : String) (meta : DescMeta) (sr : SendRecord)
    (hsr : t.send_to_queue args kwargs host localArg hostname meta = .ok sr) :
    sr.desc.lookup "kwargs" = some (.kwargMap kwargs) := by
  rw [Task.send_to_queue] at hsr
  obtain ⟨d, hd, hfd⟩ := except_map_eq_ok _ _ _ hsr
  cases hfd
  exact get_task_description_lookup_kwargs t args kwargs _ meta d hd

/-- A nonempty per-call host resolves to queue.host with the local flag
cleared. -/
theorem resolveRouting_host (t : Task) (h : String) (hh : h ≠ "") (localArg : PyVal) :
    resolveRouting t (.str h) localArg = (t.queue ++ "." ++ h, PyVal.bool false) := by
  simp [resolveRouting, pyTruthy, pyStr, hh]

/-- Without a host, a boolean local override replaces the configured
flag. -/
theorem resolveRouting_localOverride (t : Task) (b : Bool) :
    resolveRouting t .pyNone (.bool b) = (t.queue, PyVal.bool b) := by
  simp [resolveRouting, pyTruthy]

/-- Without a host and with a None override, the configured flag
stands. -/
theorem resolveRouting_default (t : Task) :
    resolveRouting t .pyNone .pyNone = (t.queue, PyVal.bool t.localFlag) := by
  simp [resolveRouting, pyTruthy]

/-- C5: queued routing resolution.  A nonempty per-call host forces the
queue-name string handed to the Queue constructor (and the resolved
queue name) to queue.host and clears the local flag whatever the local
override or configured flag; without a host, a per-call local override
that is not None replaces the configured local flag, and a None
override leaves the configured flag. -/
theorem c5_host_wins_over_local (t : Task) (args : List PyVal) (kwargs : Kwargs)
    (h : String) (hh : h ≠ "") (localArg : PyVal) (b : Bool)
    (hostname : String) (meta : DescMeta) :
    (∀ sr, t.send_to_queue args kwargs (.str h) localArg hostname meta = .ok sr →
        sr.queueArg = t.queue ++ "." ++ h ∧ sr.localVal = PyVal.bool false
        ∧ sr.queueName = t.queue ++ "." ++ h)
    ∧ (∀ sr, t.send_to_queue args kwargs .pyNone (.bool b) hostname meta = .ok sr →
        sr.localVal = PyVal.bool b)
    ∧ (∀ sr, t.send_to_queue args kwargs .pyNone .pyNone hostname meta = .ok sr →
        sr.localVal = PyVal.bool t.localFlag) := by
  refine ⟨?_, ?_, ?_⟩
  · intro sr hsr
    simp only [Task.send_to_queue, resolveRouting_host t h hh localArg] at hsr
    obtain ⟨d, hd, hfd⟩ := except_map_eq_ok _ _ _ hsr
    cases hfd
    exact ⟨rfl, rfl, rfl⟩
  · intro sr hsr
    simp only [Task.send_to_queue, resolveRouting_localOverride t b] at hsr
    obtain ⟨d, hd, hfd⟩ := except_map_eq_ok _ _ _ hsr
    cases hfd
    rfl
  · intro sr hsr
    simp only [Task.send_to_queue, resolveRouting_default t] at hsr
    obtain ⟨d, hd, hfd⟩ := except_map_eq_ok _ _ _ hsr
    cases hfd
    rfl

/-- C5, witness: a host override web1 on a task configured for queue
kuyruk with a local override true still sends to kuyruk.web1 with the
local flag cleared. -/
theorem c5_host_wins_over_local_witness :
    (plainTask.send_to_queue [] [] (.str "web1") (.bool true) "myhost" sampleMeta).map
        (fun sr => (sr.queueArg, sr.localVal, sr.queueName))
      = .ok ("kuyruk.web1", PyVal.bool false, "kuyruk.web1") := by
  cases hq : plainTask.send_to_queue [] [] (.str "web1") (.bool true) "myhost" sampleMeta with
  | error e => exact nomatch hq
  | ok sr =>
      obtain ⟨h1, h2, h3⟩ := (c5_host_wins_over_local plainTask [] [] "web1" (by decide)
          (.bool true) true "myhost" sampleMeta).1 sr hq
      simp only [Except.map, h1, h2, h3]
      exact congrArg Except.ok (by decide)

/-- Slice events the wait loop survives without reaching a terminal
outcome of its own kind: slice-local timeouts and EINTR-interrupted
receives. -/
def timeoutOrEintr : SliceEvent → Bool
  | .sliceTimeout _ => true
  | .sockError errno => errno == EINTR
  | .message _ => false

/-- Over a trace of slice timeouts and EINTR interrupts, wait raises
ResultTimeout exactly when some slice-local timeout observes a total
elapsed time strictly above the deadline. -/
theorem resultWait_timeout_iff (t : Nat) (trace : List SliceEvent)
    (htrace : ∀ ev ∈ trace, timeoutOrEintr ev = true) :
    resultWait none t trace = .resultTimeout
      ↔ ∃ elapsed, SliceEvent.sliceTimeout elapsed ∈ trace ∧ t < elapsed := by
  induction trace with
  | nil => simp [resultWait]
  | cons ev tl ih =>
      have hev := htrace ev (List.mem_cons_self ev tl)
      have htl : ∀ e ∈ tl, timeoutOrEintr e = true :=
        fun e he => htrace e (List.mem_cons_of_mem ev he)
      replace ih := ih htl
      cases ev with
      | message m => simp [timeoutOrEintr] at hev
      | sliceTimeout el =>
          by_cases hlt : t < el
          · rw [show resultWait none t (SliceEvent.sliceTimeout el :: tl)
                  = .resultTimeout from by simp [resultWait, hlt]]
            simp only [true_iff, eq_self_iff_true]
            exact ⟨el, List.mem_cons_self _ _, hlt⟩
          · rw [show resultWait none t (SliceEvent.sliceTimeout el :: tl)
                  = resultWait none t tl from by simp [resultWait, hlt]]
            rw [ih]
            constructor
            · rintro ⟨el2, hmem, hl2⟩
              exact ⟨el2, List.mem_cons_of_mem _ hmem, hl2⟩
            · rintro ⟨el2, hmem, hl2⟩
              rcases List.mem_cons.1 hmem with heq | hmem2
              · injection heq with h2
                subst h2
                exact absurd hl2 hlt
              · exact ⟨el2, hmem2, hl2⟩
      | sockError er =>
          have her : er = EINTR := by simpa [timeoutOrEintr] using hev
          rw [show resultWait none t (SliceEvent.sockError er :: tl)
                  = resultWait none t tl from by simp [resultWait, her]]
          rw [ih]
          constructor
          · rintro ⟨el2, hmem, hl2⟩
            exact ⟨el2, List.mem_cons_of_mem _ hmem, hl2⟩
          · rintro ⟨el2, hmem, hl2⟩
            rcases List.mem_cons.1 hmem with heq | hmem2
            · cases heq
            · exact ⟨el2, hmem2, hl2⟩

/-- C8: while no terminal reply arrives, every slice-local timeout
checks the total elapsed time against the deadline and wait fails with
ResultTimeout exactly when the deadline is strictly exceeded; an EINTR
interruption retries the blocking receive, and any other socket error
propagates. -/
theorem c8_deadline_check_and_eintr_retry (t : Nat) (trace : List SliceEvent)
    (htrace : ∀ ev ∈ trace, timeoutOrEintr ev = true)
    (errno : Nat) (herr : errno ≠ EINTR) (rest : List SliceEvent) :
    (resultWait none t trace = .resultTimeout
        ↔ ∃ elapsed, SliceEvent.sliceTimeout elapsed ∈ trace ∧ t < elapsed)
    ∧ resultWait none t (.sockError errno :: rest) = .socketError errno :=
  ⟨resultWait_timeout_iff t trace htrace, by simp [resultWait, herr]⟩

/-- C8, witness: an EINTR interrupt is retried and a later slice
observing elapsed time 6 above the deadline 5 raises ResultTimeout; a
socket error with errno 3 propagates. -/
theorem c8_deadline_check_and_eintr_retry_witness :
    resultWait none 5 [.sockError 4, .sliceTimeout 6] = .resultTimeout
    ∧ resultWait none 5 [.sockError 3] = .socketError 3 := by
  have h := c8_deadline_check_and_eintr_retry 5 [.sockError 4, .sliceTimeout 6]
    (by decide) 3 (by decide) []
  exact ⟨h.1.mpr ⟨6, by decide, by decide⟩, h.2⟩

/-- C9, counterexample: the class field is not absent for unbound
tasks.  The description dictionary of a task with no owning type still
contains the class key, carrying None. -/
theorem c9_class_key_present_for_unbound :
    plainTask.cls = none
    ∧ (plainTask.get_task_description [] [] "kuyruk" sampleMeta).map
        (fun d => d.lookup "class") = .ok (some DescVal.null) := by
  exact ⟨rfl, rfl⟩

/-- C9, amended: for a task bound to an owning-type instance the first
positional argument is replaced by the id attribute of the instance
before serialization and the class field holds the owning-type name;
for an unbound task the class field is present but holds None. -/
theorem c9_desc_first_arg_and_class (t : Task) (c i : String) (rest args : List PyVal)
    (kwargs : Kwargs) (queue : String) (meta : DescMeta) :
    (t.cls = some c →
        (t.get_task_description (.obj i :: rest) kwargs queue meta).map
            (fun d => (d.lookup "args", d.lookup "class"))
          = .ok (some (.argList (.str i :: rest)), some (.str c)))
    ∧ (t.cls = none →
        (t.get_task_description args kwargs queue meta).map
            (fun d => d.lookup "class") = .ok (some DescVal.null)) := by
  obtain ⟨fM, fN, q, lf, eg, rt, mrt, cls, pcn⟩ := t
  constructor
  · intro hc
    cases hc
    rfl
  · intro hc
    cases hc
    rfl

/-- C9, witness: a class task bound to an instance with id 7 serializes
args with the instance replaced by its id and a class field Welcome; an
unbound task serializes a null class field. -/
theorem c9_desc_first_arg_and_class_witness :
    (welcomeTask.get_task_description [.obj "7"] [] "kuyruk" sampleMeta).map
        (fun d => (d.lookup "args", d.lookup "class"))
      = .ok (some (.argList [.str "7"]), some (.str "Welcome"))
    ∧ (plainTask.get_task_description [.obj "7"] [] "kuyruk" sampleMeta).map
        (fun d => d.lookup "class") = .ok (some DescVal.null) := by
  have h1 := c9_desc_first_arg_and_class welcomeTask "Welcome" "7" [] [.obj "7"] [] "kuyruk" sampleMeta
  have h2 := c9_desc_first_arg_and_class plainTask "Welcome" "7" [] [.obj "7"] [] "kuyruk" sampleMeta
  exact ⟨h1.1 rfl, h2.2 rfl⟩

/-- C10: the routing overrides kuyruk_host and kuyruk_local are read
from the keyword arguments and removed from them only on the queued
path, before the description is built; on the eager path they are not
extracted and the keyword arguments reach the task body unchanged. -/
theorem c10_overrides_popped_only_when_queued (t : Task) (k : Kuyruk) (args : List PyVal)
    (kwargs : Kwargs) (f : List PyVal → Kwargs → BodyOutcome)
    (hostname : String) (meta : DescMeta) :
    ((t.eager || k.config.EAGER) = true →
        (t.__call__ k args kwargs f hostname meta).bodyCalled = some (args, kwargs)
        ∧ (t.__call__ k args kwargs f hostname meta).sent = [])
    ∧ ((t.eager || k.config.EAGER) = false →
        (∀ sr, t.send_to_queue args (removeKw (removeKw kwargs "kuyruk_host") "kuyruk_local")
              ((kwargs.lookup "kuyruk_host").getD .pyNone)
              (((removeKw kwargs "kuyruk_host").lookup "kuyruk_local").getD .pyNone)
              hostname meta = .ok sr →
          (t.__call__ k args kwargs f hostname meta).sent = [sr]
          ∧ sr.desc.lookup "kwargs"
              = some (.kwargMap (removeKw (removeKw kwargs "kuyruk_host") "kuyruk_local")))
        ∧ (t.__call__ k args kwargs f hostname meta).bodyCalled = none) := by
  constructor
  · intro he
    cases hb : f args kwargs with
    | ret v => exact ⟨by simp [Task.__call__, he, Task.apply, hb], by simp [Task.__call__, he, Task.apply, hb]⟩
    | exc e => exact ⟨by simp [Task.__call__, he, Task.apply, hb], by simp [Task.__call__, he, Task.apply, hb]⟩
  · intro he
    constructor
    · intro sr hsr
      refine ⟨?_, send_to_queue_desc_kwargs t args _ _ _ hostname meta sr hsr⟩
      simp [Task.__call__, he, popKw, hsr]
    · cases hq : t.send_to_queue args (removeKw (removeKw kwargs "kuyruk_host") "kuyruk_local")
          ((kwargs.lookup "kuyruk_host").getD .pyNone)
          (((removeKw kwargs "kuyruk_host").lookup "kuyruk_local").getD .pyNone)
          hostname meta with
      | error e => simp [Task.__call__, he, popKw, hq]
      | ok sr => simp [Task.__call__, he, popKw, hq]

/-- C10, witness: with kwargs carrying kuyruk_host, the eager path
hands them to the body unchanged, while the queued path strips the
override before building the description. -/
theorem c10_overrides_popped_only_when_queued_witness :
    (eagerTask.__call__ sampleKuyruk [] [("kuyruk_host", .str "web1"), ("x", .int 1)]
        (fun _ _ => .ret .pyNone) "myhost" sampleMeta).bodyCalled
      = some ([], [("kuyruk_host", .str "web1"), ("x", .int 1)])
    ∧ ((plainTask.__call__ sampleKuyruk [] [("kuyruk_host", .str "web1"), ("x", .int 1)]
        (fun _ _ => .ret .pyNone) "myhost" sampleMeta).sent.map
          (fun sr => sr.desc.lookup "kwargs"))
      = [some (.kwargMap [("x", .int 1)])] := by
  have h1 := c10_overrides_popped_only_when_queued eagerTask sampleKuyruk []
    [("kuyruk_host", .str "web1"), ("x", .int 1)] (fun _ _ => .ret .pyNone) "myhost" sampleMeta
  have h2 := c10_overrides_popped_only_when_queued plainTask sampleKuyruk []
    [("kuyruk_host", .str "web1"), ("x", .int 1)] (fun _ _ => .ret .pyNone) "myhost" sampleMeta
  refine ⟨(h1.1 rfl).1, ?_⟩
  obtain ⟨hs, hk⟩ := (h2.2 rfl).1 _ rfl
  rw [hs]
  simpa using hk

end Kuyruk
